import Mathlib

/-!
Verification of the codr execution-pipeline backend against its
natural-language specification.

The definitions below are a shallow embedding of the Python source:
  * `lib/executors/base.py` (PTY runner, sandbox command, output cleaning)
  * `executors/compiled_base.py` (compilation step for C/C++/Rust)
  * `executors/__init__.py` (executor registry)
  * `lib/security/python_ast_validator.py` and
    `lib/security/validator.py` (per-language validator dispatch)
  * `api/security/javascript_ast_validator.py` (JavaScript AST walk)
  * `lib/services/job_service.py` (job store transitions)
  * `lib/services/pubsub_service.py` (bus channels)
  * `lib/utils/output_formatter.py` (output sanitizer)
  * `services/websocket/routes.py` (gateway session)
  * `services/websocket/middleware/jwt_manager.py` (single-use tokens)

Machine text is modelled as Lean `String` (lists of characters);
the regular expressions of the source are compiled by hand into
executable character-list matchers.  Redis state is modelled as explicit
functional state (lists of keys, association lists for hashes), and the
fallible paths of the source (raised exceptions) as `Except`/`Option`.
-/

namespace Codr

/-! ## Character/string helpers shared by several components -/

/-- ASCII lower-casing of one character, as `str.lower()` acts on the
ASCII language tags and command words this code applies it to. -/
def charLower (c : Char) : Char :=
  if 'A' ≤ c ∧ c ≤ 'Z' then Char.ofNat (c.toNat + 32) else c

/-- Embedding of Python `s.lower()` restricted to ASCII content. -/
def pyLower (s : String) : String :=
  String.mk (s.data.map charLower)

/-- Whitespace set stripped by Python `str.strip()`. -/
def pyWhitespace (c : Char) : Bool :=
  c = ' ' ∨ c = '\t' ∨ c = '\n' ∨ c = '\r' ∨ c = '\x0b' ∨ c = '\x0c'

/-- Embedding of Python `str.strip()` on the character list. -/
def pyStripChars (l : List Char) : List Char :=
  ((l.dropWhile pyWhitespace).reverse.dropWhile pyWhitespace).reverse

/-- Embedding of Python `str.strip()`. -/
def pyStrip (s : String) : String :=
  String.mk (pyStripChars s.data)

/-- Decidable substring test on character lists (`needle in haystack`). -/
def listContainsSub (needle : List Char) : List Char → Bool
  | [] => needle.isEmpty
  | c :: rest => needle.isPrefixOf (c :: rest) || listContainsSub needle rest

/-- Embedding of Python `needle in haystack` on strings. -/
def strContains (haystack needle : String) : Bool :=
  listContainsSub needle.data haystack.data

/-- Embedding of Python `s.startswith(p)`. -/
def strStartsWith (s p : String) : Bool :=
  p.data.isPrefixOf s.data

/-- Embedding of Python `s.endswith(p)`. -/
def strEndsWith (s p : String) : Bool :=
  p.data.isSuffixOf s.data

/-- Embedding of `os.path.join(a, b)` for the cases exercised here:
an absolute second component wins, otherwise the parts are glued with
exactly one separator. -/
def osPathJoin (a b : String) : String :=
  if strStartsWith b "/" then b
  else if a = "" then b
  else if strEndsWith a "/" then a ++ b
  else a ++ "/" ++ b

/-! ## C6 — PTY runner result shape (`lib/executors/base.py`)

`_execute_pty` either reaches the normal return (`ExecutionResult` built
from `process.returncode`, which `subprocess` may leave as `None`, and
the accumulated PTY bytes) or lands in the final `except` handler, which
delegates to `_format_error_result`.  The wall-clock duration is carried
opaquely (`Nat`); the claims never compute with it. -/

structure ExecutionResult where
  success : Bool
  exit_code : Int
  execution_time : Nat
  stdout : String
  stderr : String
  deriving DecidableEq, Repr

/-- Outcome of one `_execute_pty` run: either the normal path finished
with `process.returncode` (possibly `None`) and the accumulated output,
or some statement inside the `try` block raised with a message. -/
inductive PtyOutcome where
  | completed (returncode : Option Int) (output : String)
  | failed (message : String)
  deriving DecidableEq, Repr

/-- Embedding of `BaseExecutor._format_error_result`. -/
def formatErrorResult (message : String) (executionTime : Nat) : ExecutionResult :=
  { success := false
    stdout := ""
    stderr := "Execution error: " ++ message
    exit_code := -1
    execution_time := executionTime }

/-- Embedding of the result construction of `BaseExecutor._execute_pty`:
`success = (process.returncode == 0)`, `exit_code = returncode or -1`,
`stderr = ""` on the normal path; the `except` handler converts any
exception via `_format_error_result`. -/
def executePty (outcome : PtyOutcome) (executionTime : Nat) : ExecutionResult :=
  match outcome with
  | .completed rc output =>
      { success := rc = some 0
        exit_code := rc.getD (-1)
        execution_time := executionTime
        stdout := output
        stderr := "" }
  | .failed message => formatErrorResult message executionTime

/-! ## C9 — bus channels (`lib/services/pubsub_service.py`) -/

/-- Channel named by `PubSubService._output_channel`. -/
def outputChannel (jobId : String) : String :=
  "job:" ++ jobId ++ ":output"

/-- Channel named by `PubSubService._complete_channel`. -/
def completeChannel (jobId : String) : String :=
  "job:" ++ jobId ++ ":complete"

/-- Frames carried on the bus; the JSON `type` discriminator becomes the
constructor. -/
inductive Frame where
  | output (stream data : String)
  | complete (exitCode : Int) (executionTime : Nat)
  | error (message : String)
  deriving DecidableEq, Repr

/-- Predicate used to phrase C3: whether a frame is a `complete` frame. -/
def Frame.isComplete : Frame → Bool
  | .complete _ _ => true
  | _ => false

/-- Embedding of `PubSubService.publish_error`: the payload and the
channel it is published on (the *output* channel of the job). -/
def publishError (jobId message : String) : String × Frame :=
  (outputChannel jobId, Frame.error message)

/-- Embedding of the channel list of
`PubSubService.subscribe_to_channels`. -/
def subscribeChannels (jobId : String) : List String :=
  [outputChannel jobId, completeChannel jobId]

/-- Claim C9 helper: a published (channel, frame) pair is delivered to
the gateway exactly when its channel is subscribed. -/
def deliveredToGateway (jobId : String) (publication : String × Frame) : Bool :=
  (subscribeChannels jobId).contains publication.fst

/-! ## C1 — single-use job tokens
(`services/websocket/routes.py` lines 107-139,
`services/websocket/middleware/jwt_manager.py`)

`mark_token_used` writes the key `used_token:{jti}` into the Redis
keyspace; `is_token_used` tests the key's existence.  The gateway's
auth phase first rejects a token whose `jti` is already recorded
(error message "Job token has already been used", close code 1008)
and otherwise records the `jti` and proceeds.  The claim presupposes
the redemption keyspace is reachable, so the `except` fallbacks of the
two helpers (fail-open) do not fire; the keyspace becomes an explicit
list of keys. -/

/-- Key written by `JobTokenManager.mark_token_used`. -/
def usedTokenKey (jti : String) : String :=
  "used_token:" ++ jti

/-- Result of the single-use gate for one session. -/
structure AuthResult where
  errorMessage : Option String
  closeCode : Option Nat
  accepted : Bool
  store : List String
  deriving DecidableEq, Repr

/-- Embedding of the single-use gate of `websocket_execute`:
`is_token_used(jti)` then `mark_token_used(jti)`, with the rejection
frame and close code of the already-used branch. -/
def authSingleUse (store : List String) (jti : String) : AuthResult :=
  if usedTokenKey jti ∈ store then
    { errorMessage := some "Job token has already been used"
      closeCode := some 1008
      accepted := false
      store := store }
  else
    { errorMessage := none
      closeCode := none
      accepted := true
      store := usedTokenKey jti :: store }

/-- Number of sessions in `requests` (processed in order against the
evolving keyspace) that pass the single-use gate while presenting the
given `jti`. -/
def countAccepted (store : List String) (requests : List String) (jti : String) : Nat :=
  match requests with
  | [] => 0
  | j :: rest =>
      (if (authSingleUse store j).accepted ∧ j = jti then 1 else 0) +
        countAccepted (authSingleUse store j).store rest jti

/-! ## C2 — gateway input-size gate
(`services/websocket/routes.py` lines 221-241,
`lib/config/settings.py` line 43) -/

/-- Action the gateway message loop takes on one `input` frame. -/
inductive InputAction where
  | publish (channel : String) (data : String)
  | errorFrame (message : String)
  deriving DecidableEq, Repr

/-- Embedding of the `type == "input"` branch of the gateway message
loop: the frame's data is published to `job:{id}:input` unless
`len(input_data) > settings.max_input_kb`, in which case the client
receives an error frame and the frame is dropped. -/
def handleInputFrame (maxInputKb : Nat) (jobId : String) (data : String) : InputAction :=
  if data.length > maxInputKb then
    .errorFrame "Input too large (max 10KB)"
  else
    .publish ("job:" ++ jobId ++ ":input") data

/-- Default of `AppSettings.max_input_kb`. -/
def defaultMaxInputKb : Nat := 100

/-- A 200-character input frame payload: well under the specified
100 KB budget, yet longer than 100 bytes. -/
def inputFrame200 : String :=
  String.mk (List.replicate 200 'a')

/-! ## C3 — compilation failure surface
(`executors/compiled_base.py` lines 31-60,
`services/worker/worker.py` lines 74-188)

`CompiledExecutor._build_command` runs the compiler; a non-zero exit
raises `Exception("Compilation failed:\n" + stderr)` and a timeout
raises `Exception("Compilation timed out after N seconds")`.  The
exception escapes `execute` (the PTY `try` block has not been entered
yet), and the worker's `except` handler publishes `error(str(e))` —
not a `complete` frame.  The compiler subprocess is abstracted into
its observable outcome. -/

/-- Observable outcome of the compiler subprocess invocation. -/
inductive CompileOutcome where
  | finished (returncode : Int) (stderr : String)
  | timedOut
  deriving DecidableEq, Repr

/-- Embedding of `CompiledExecutor._build_command`: the raised
exception message becomes the `Except.error` payload, the returned
argv (`[binarypath]`) the `Except.ok` payload. -/
def compilerBuildCommand (workdir : String) (compilationTimeout : Nat)
    (outcome : CompileOutcome) : Except String (List String) :=
  match outcome with
  | .finished rc stderr =>
      if rc ≠ 0 then .error ("Compilation failed:\n" ++ stderr)
      else .ok [osPathJoin workdir "program"]
  | .timedOut =>
      .error ("Compilation timed out after " ++ toString compilationTimeout ++ " seconds")

/-- Embedding of `BaseExecutor.execute` for a compiled language: build
the command (which may raise) and run the PTY step. -/
def executeCompiledJob (workdir : String) (compilationTimeout : Nat)
    (outcome : CompileOutcome) (run : PtyOutcome) (t : Nat) :
    Except String ExecutionResult :=
  (compilerBuildCommand workdir compilationTimeout outcome).map
    (fun _ => executePty run t)

/-- Embedding of the frame `CodeExecutionWorker.execute_job` publishes
for one job: `publish_complete(exit_code, execution_time)` on normal
return of the executor, `publish_error(str(e))` when the executor
raised. -/
def workerJobFrame (result : Except String ExecutionResult) : Frame :=
  match result with
  | .ok r => Frame.complete r.exit_code r.execution_time
  | .error message => Frame.error message

/-! ## C4 — job store terminal transitions
(`lib/services/job_service.py`)

The Redis hash `job:{id}` is an association list; `hset` overwrites an
existing field or appends a new one.  `mark_completed`/`mark_failed`
batch their `hset` commands in a pipeline executed atomically, so an
observer sees only the pre-state and the post-state. -/

/-- Redis hash contents for one job record. -/
abbrev JobHash := List (String × String)

/-- Redis `HSET` on one field. -/
def hset (h : JobHash) (field value : String) : JobHash :=
  match h with
  | [] => [(field, value)]
  | (k, v) :: rest =>
      if k = field then (field, value) :: rest else (k, v) :: hset rest field value

/-- Redis `HGET` of one field. -/
def hget (h : JobHash) (field : String) : Option String :=
  match h with
  | [] => none
  | (k, v) :: rest => if k = field then some v else hget rest field

/-- Apply a batch of `hset` commands in order. -/
def applyCmds (h : JobHash) (cmds : List (String × String)) : JobHash :=
  cmds.foldl (fun acc kv => hset acc kv.fst kv.snd) h

/-- Embedding of the mapping written by `JobService.create_job`. -/
def createJobHash (jobId code language filename createdAt : String) : JobHash :=
  [("job_id", jobId), ("code", code), ("language", language),
   ("filename", filename), ("status", "queued"), ("created_at", createdAt)]

/-- Pipeline batched by `JobService.mark_completed`. -/
def markCompletedCmds (resultJson completedAt : String) : List (String × String) :=
  [("result", resultJson), ("status", "completed"), ("completed_at", completedAt)]

/-- Pipeline batched by `JobService.mark_failed`; a falsy `result`
argument adds no command. -/
def markFailedCmds (error : String) (resultJson : Option String) :
    List (String × String) :=
  [("error", error), ("status", "failed")] ++
    (match resultJson with
     | some r => [("result", r)]
     | none => [])

/-- States an observer can read around one atomically executed
pipeline: the pre-state and the post-state only. -/
def observableStates (h : JobHash) (cmds : List (String × String)) : List JobHash :=
  [h, applyCmds h cmds]

/-- Concrete fresh job record marked failed, used to exhibit the
missing failure timestamp. -/
def failedJobExample : JobHash :=
  applyCmds (createJobHash "id-1" "print(1)" "python" "main.py" "100.0")
    (markFailedCmds "boom" none)

/-! ## C5 — sandbox address-space rlimit policy
(`lib/executors/base.py` lines 76-109 and the per-language
`_build_command` implementations) -/

/-- Keyword list of the `is_javascript` heuristic in
`BaseExecutor._build_sandbox_command`. -/
def sandboxKeywords : List String :=
  ["node", "nodejs", "javascript"]

/-- Embedding of `any(keyword in cmd.lower() for cmd in command for
keyword in [...])`. -/
def isJavascriptCommand (command : List String) : Bool :=
  command.any (fun cmd => sandboxKeywords.any (fun kw => strContains (pyLower cmd) kw))

/-- True when a single string triggers none of the sandbox keywords. -/
def jsKeywordFree (s : String) : Bool :=
  !(sandboxKeywords.any (fun kw => strContains (pyLower s) kw))

/-- Two-digit zero-padded decimal, as Python `f"{n:02d}"`. -/
def pad2 (n : Nat) : String :=
  if n < 10 then "0" ++ toString n else toString n

/-- The address-space rlimit flag appended for non-JavaScript jobs. -/
def rlimitAsFlag (maxMemoryMb : Nat) : String :=
  "--rlimit-as=" ++ toString (maxMemoryMb * 1024 * 1024)

/-- Embedding of `BaseExecutor._build_sandbox_command`. -/
def buildSandboxCommand (timeout maxMemoryMb maxFileSizeMb : Nat)
    (command : List String) : List String :=
  let base :=
    ["/usr/bin/firejail", "--quiet", "--profile=/etc/firejail/sandbox.profile",
     "--nodbus",
     "--rlimit-cpu=" ++ toString timeout,
     "--rlimit-fsize=" ++ toString (maxFileSizeMb * 1024 * 1024),
     "--timeout=00:00:" ++ pad2 timeout]
  let base2 :=
    if isJavascriptCommand command then base
    else base ++ [rlimitAsFlag maxMemoryMb]
  base2 ++ command

/-- Embedding of `PythonExecutor._build_command`. -/
def pythonBuildCommand (filepath : String) : List String :=
  ["python3", filepath]

/-- Embedding of `JavaScriptExecutor._build_command`. -/
def javascriptBuildCommand (filepath : String) : List String :=
  ["node", "--max-old-space-size=64", "--no-concurrent-recompilation",
   "--single-threaded-gc", filepath]

/-- Post-compilation argv of the compiled executors (`[binarypath]`
with `binarypath = os.path.join(workdir, 'program')`). -/
def compiledRunCommand (workdir : String) : List String :=
  [osPathJoin workdir "program"]

/-- Character class of the filename regex `^[a-zA-Z0-9_.-]+$`. -/
def filenameCharOk (c : Char) : Bool :=
  c.isAlpha ∨ c.isDigit ∨ c = '_' ∨ c = '.' ∨ c = '-'

/-- Full match of `^[a-zA-Z0-9_.-]+$` under Python semantics, where
`$` also matches just before one trailing newline. -/
def fnRegexOk (l : List Char) : Bool :=
  let core := if l.getLast? = some '\n' then l.dropLast else l
  (!core.isEmpty) && core.all filenameCharOk

/-- Embedding of `BaseExecutor._validateFileName` as a predicate
(`true` when no `ValueError` is raised). -/
def validateFileName (filename : String) : Bool :=
  fnRegexOk filename.data && !(strContains filename "..") &&
    !(strStartsWith filename "/")

/-! ## C7 — Python AST validator
(`lib/security/python_ast_validator.py`,
`api/models/allowlist.py`)

The Python AST is embedded as an inductive: the node kinds the
validator inspects get their own constructors; every other node kind
contributes only its children and is represented by `other`.
`ast.walk` enumerates nodes breadth-first; the embedding enumerates
depth-first — the node multiset is identical, so the validity bit
agrees (only which violating node is reported first may differ). -/

/-- Python AST nodes, restricted to the shapes the validator walks. -/
inductive PyNode where
  | module (body : List PyNode)
  | exprStmt (value : PyNode)
  | importStmt (names : List String)
  | importFrom (moduleName : Option String) (names : List String)
  | call (funcExpr : PyNode) (args : List PyNode)
  | attrAccess (value : PyNode) (attrName : String)
  | subscript (value : PyNode) (index : PyNode)
  | name (id : String)
  | constant
  | other (children : List PyNode)

/-- `PYTHON_BLOCKED_OPERATIONS` from `api/models/allowlist.py`. -/
def PYTHON_BLOCKED_OPERATIONS : List String :=
  ["eval", "exec", "compile", "__import__",
   "open", "file",
   "globals", "locals", "vars", "dir", "getattr", "setattr", "delattr",
   "hasattr", "__builtins__",
   "exit", "quit", "help"]

/-- `PYTHON_BLOCKED_MODULES` from `api/models/allowlist.py`. -/
def PYTHON_BLOCKED_MODULES : List String :=
  ["os", "sys", "io", "pathlib", "glob", "shutil", "tempfile",
   "subprocess", "multiprocessing", "threading", "asyncio",
   "socket", "urllib", "http", "ftplib", "smtplib", "ssl",
   "requests", "httplib", "urllib2", "urllib3",
   "importlib", "imp", "code", "codeop", "runpy",
   "ctypes", "pty", "pwd", "grp", "resource",
   "signal", "platform", "sysconfig",
   "pickle", "shelve", "marshal", "dill"]

/-- `PYTHON_SAFE_DUNDERS` from `api/models/allowlist.py`. -/
def PYTHON_SAFE_DUNDERS : List String :=
  ["__str__", "__repr__", "__len__", "__init__"]

/-- Python `s.startswith("__") and s.endswith("__")`. -/
def isDunder (s : String) : Bool :=
  strStartsWith s "__" && strEndsWith s "__"

/-- Python `module_name.split(".")[0]`. -/
def leadingPkg (s : String) : String :=
  String.mk (s.data.takeWhile (fun c => c ≠ '.'))

/-- The per-node checks of `PythonASTValidator.validate`, in source
order; `some reason` when the node makes the walk return
`(False, reason)`. -/
def nodeViolation : PyNode → Option String
  | .call (.name funcName) _ =>
      if PYTHON_BLOCKED_OPERATIONS.contains funcName then
        some ("Blocked operation: " ++ funcName ++ "()")
      else none
  | .call (.attrAccess _ attrName) _ =>
      if isDunder attrName then
        some ("Blocked dunder method access: " ++ attrName ++ "()")
      else none
  | .call _ _ => none
  | .importStmt names =>
      names.findSome? (fun nm =>
        if PYTHON_BLOCKED_MODULES.contains (leadingPkg nm) then
          some ("Blocked module: " ++ leadingPkg nm)
        else none)
  | .importFrom (some m) _ =>
      if PYTHON_BLOCKED_MODULES.contains (leadingPkg m) then
        some ("Blocked module: " ++ leadingPkg m)
      else none
  | .importFrom none _ => none
  | .attrAccess (.name vid) attrName =>
      if PYTHON_BLOCKED_MODULES.contains vid then
        some ("Access to blocked module: " ++ vid)
      else if isDunder vid then
        some ("Access to dunder variable: " ++ vid)
      else if isDunder attrName && !(PYTHON_SAFE_DUNDERS.contains attrName) then
        some ("Access to restricted attribute: " ++ attrName)
      else none
  | .attrAccess _ _ => none
  | .subscript (.name vid) _ =>
      if isDunder vid then
        some ("Subscript access to dunder variable: " ++ vid)
      else none
  | .subscript _ _ => none
  | .name id =>
      if id = "compile" then some "Blocked operation: compile" else none
  | _ => none

mutual

/-- Node enumeration of `ast.walk` (depth-first here; same node set). -/
def pyWalk : PyNode → List PyNode
  | .module body => .module body :: pyWalkList body
  | .exprStmt v => .exprStmt v :: pyWalk v
  | .importStmt ns => [.importStmt ns]
  | .importFrom m ns => [.importFrom m ns]
  | .call f args => .call f args :: (pyWalk f ++ pyWalkList args)
  | .attrAccess v a => .attrAccess v a :: pyWalk v
  | .subscript v i => .subscript v i :: (pyWalk v ++ pyWalk i)
  | .name i => [.name i]
  | .constant => [.constant]
  | .other cs => .other cs :: pyWalkList cs

/-- Walk of a child list. -/
def pyWalkList : List PyNode → List PyNode
  | [] => []
  | n :: ns => pyWalk n ++ pyWalkList ns

end

/-- Embedding of `PythonASTValidator.validate` on a parsed module: the
walk returns the first violation's `(False, reason)` or `(True, "")`. -/
def pyValidate (m : PyNode) : Bool × String :=
  match (pyWalk m).findSome? nodeViolation with
  | some msg => (false, msg)
  | none => (true, "")

/-- The constructs the claim lists: a direct call to a blocked
operation name, an import (or from-import) whose leading package is
blocked, or a bare reference to `compile`. -/
def claimListedNode : PyNode → Bool
  | .call (.name funcName) _ => PYTHON_BLOCKED_OPERATIONS.contains funcName
  | .importStmt ns => ns.any (fun nm => PYTHON_BLOCKED_MODULES.contains (leadingPkg nm))
  | .importFrom (some m) _ => PYTHON_BLOCKED_MODULES.contains (leadingPkg m)
  | .name i => i = "compile"
  | _ => false

/-- Whether the source contains one of the claim's listed constructs. -/
def containsClaimListed (m : PyNode) : Bool :=
  (pyWalk m).any claimListedNode

/-- Whether the source contains any construct the validator actually
flags (the claim's list plus dunder-method calls, attribute access on
blocked modules or restricted dunders, and subscripts on dunder
names). -/
def containsFlagged (m : PyNode) : Bool :=
  (pyWalk m).any (fun n => (nodeViolation n).isSome)

/-- The module `x.__dict__`: none of the claim's listed constructs,
yet rejected by the validator. -/
def pyClaimCounterexample : PyNode :=
  .module [.exprStmt (.attrAccess (.name "x") "__dict__")]

/-! ## C8 — output sanitizer
(`lib/utils/output_formatter.py`, `lib/executors/base.py` lines 214-237)

Each `re.sub(pattern, repl, text)` of the source is compiled into a
start-anchored matcher (`Option Nat` = length of the match at the head
of the list, the patterns here are deterministic: no character class
overlaps its follow set) plus a generic left-to-right scanner replacing
non-overlapping matches.  The scanner runs on fuel `l.length`, enough
because every match consumes at least one character. -/

/-- Generic `re.sub` scanner: replace each non-overlapping match of
`matcher`, scanning left to right. -/
def subGo (matcher : List Char → Option Nat) (repl : List Char) :
    Nat → List Char → List Char
  | 0, l => l
  | _ + 1, [] => []
  | fuel + 1, c :: rest =>
      match matcher (c :: rest) with
      | some k => repl ++ subGo matcher repl fuel ((c :: rest).drop k)
      | none => c :: subGo matcher repl fuel rest

/-- Run the scanner with sufficient fuel. -/
def reSub (matcher : List Char → Option Nat) (repl : List Char)
    (l : List Char) : List Char :=
  subGo matcher repl l.length l

/-- Character class `[0-9;]` (ASCII content). -/
def ansiParamChar (c : Char) : Bool :=
  c.isDigit || c = ';'

/-- Matcher for `\x1b\[[0-9;]*m|\[[\d;]+m` at the head of the list
(the alternation is ordered as in the source pattern). -/
def ansiMatch (l : List Char) : Option Nat :=
  match l with
  | '\x1b' :: '[' :: t =>
      let ds := t.takeWhile ansiParamChar
      if (t.drop ds.length).head? = some 'm' then some (ds.length + 3) else none
  | '[' :: t =>
      let ds := t.takeWhile ansiParamChar
      if ds.length ≠ 0 ∧ (t.drop ds.length).head? = some 'm' then
        some (ds.length + 2)
      else none
  | _ => none

/-- Embedding of `strip_ansi_codes`. -/
def stripAnsiCodes (l : List Char) : List Char :=
  reSub ansiMatch [] l

/-- Matcher for `re.escape(workdir) + "/?"` at the head of the list. -/
def workdirMatch (workdir : List Char) (l : List Char) : Option Nat :=
  if workdir.isPrefixOf l then
    match l.drop workdir.length with
    | '/' :: _ => some (workdir.length + 1)
    | _ => some workdir.length
  else none

/-- Consume `n` copies of `[^/]+/` from the head of the list. -/
def segsConsume : Nat → List Char → Option Nat
  | 0, _ => some 0
  | n + 1, l =>
      let seg := l.takeWhile (fun c => c ≠ '/')
      if seg.isEmpty then none
      else
        match l.drop seg.length with
        | '/' :: _ => (segsConsume n (l.drop (seg.length + 1))).map
            (fun k => seg.length + 1 + k)
        | _ => none

/-- Matcher for a literal prefix followed by `n` groups `[^/]+/`. -/
def litSegsMatch (lit : List Char) (nsegs : Nat) (l : List Char) : Option Nat :=
  if lit.isPrefixOf l then
    (segsConsume nsegs (l.drop lit.length)).map (fun k => lit.length + k)
  else none

/-- Embedding of `clean_file_paths(text, workdir)`: the four `re.sub`
passes in source order. -/
def cleanFilePaths (workdir : String) (l : List Char) : List Char :=
  reSub (litSegsMatch "/tmp/".data 1) []
    (reSub (litSegsMatch "/var/folders/".data 4) []
      (reSub (litSegsMatch "/private/var/folders/".data 4) []
        (reSub (workdirMatch workdir.data) [] l)))

/-- Python `text.split("\n")`. -/
def splitOnNl (l : List Char) : List (List Char) :=
  l.foldr
    (fun c acc =>
      if c = '\n' then [] :: acc
      else
        match acc with
        | [] => [[c]]
        | h :: t => (c :: h) :: t)
    [[]]

/-- Search for `Node\.js v\d+\.` anchored at the head. -/
def nodeVersionAt (l : List Char) : Bool :=
  if ("Node.js v".data).isPrefixOf l then
    let rest := l.drop 9
    let ds := rest.takeWhile Char.isDigit
    if ds.isEmpty then false
    else
      match rest.drop ds.length with
      | '.' :: _ => true
      | _ => false
  else false

/-- Unanchored search (`re.search`) of a head-anchored Boolean
matcher. -/
def searchBool (p : List Char → Bool) : List Char → Bool
  | [] => p []
  | c :: rest => p (c :: rest) || searchBool p rest

/-- The JavaScript skip patterns of `filter_stack_trace`
(all literal after unescaping, except the version-banner pattern). -/
def jsSkipLine (line : List Char) : Bool :=
  listContainsSub ("at Module._compile".data) line ||
  listContainsSub ("at Object..js".data) line ||
  listContainsSub ("at Module.load".data) line ||
  listContainsSub ("at Function._load".data) line ||
  listContainsSub ("at TracingChannel".data) line ||
  listContainsSub ("at wrapModuleLoad".data) line ||
  listContainsSub ("at Function.executeUserEntryPoint".data) line ||
  listContainsSub ("at node:internal".data) line ||
  searchBool nodeVersionAt line

/-- The JavaScript filtering loop: skip internal lines, then append
when the line is non-blank or something was already kept. -/
def jsFilterGo (acc : List (List Char)) : List (List Char) → List (List Char)
  | [] => acc.reverse
  | line :: rest =>
      if jsSkipLine line then jsFilterGo acc rest
      else if !(pyStripChars line).isEmpty || !acc.isEmpty then
        jsFilterGo (line :: acc) rest
      else jsFilterGo acc rest

/-- Search for `File.*site-packages` within one line. -/
def fileSitePackages : List Char → Bool
  | [] => false
  | c :: rest =>
      (("File".data).isPrefixOf (c :: rest) &&
        listContainsSub ("site-packages".data) ((c :: rest).drop 4)) ||
      fileSitePackages rest

/-- The Python filtering loop: keep `Traceback` starts, drop
site-packages internals, keep the rest. -/
def pyFilterGo : List (List Char) → List (List Char)
  | [] => []
  | line :: rest =>
      if ("Traceback".data).isPrefixOf line then line :: pyFilterGo rest
      else if fileSitePackages line then pyFilterGo rest
      else line :: pyFilterGo rest

/-- Embedding of `filter_stack_trace(text, language)`. -/
def filterStackTrace (language : String) (l : List Char) : List Char :=
  if language = "javascript" then
    pyStripChars (List.intercalate ['\n'] (jsFilterGo [] (splitOnNl l)))
  else if language = "python" then
    pyStripChars (List.intercalate ['\n'] (pyFilterGo (splitOnNl l)))
  else l

/-- Matcher for `\n{3,}` at the head of the list (the maximal newline
run, when it has length at least three). -/
def nlRunMatch (l : List Char) : Option Nat :=
  let ds := l.takeWhile (fun c => c = '\n')
  if 3 ≤ ds.length then some ds.length else none

/-- Embedding of `format_error_message(text, language, workdir)`. -/
def formatErrorMessage (language : String) (workdir : String)
    (l : List Char) : List Char :=
  pyStripChars
    (reSub nlRunMatch ['\n', '\n']
      (filterStackTrace language
        (cleanFilePaths workdir
          (stripAnsiCodes l))))

/-- Embedding of `BaseExecutor._clean_output` on the decoded chunk:
error-looking chunks go through the full pipeline with a heuristic
language, everything else only loses ANSI codes. -/
def cleanOutput (workdir : String) (l : List Char) : List Char :=
  if listContainsSub ("Error:".data) l || listContainsSub ("Traceback".data) l ||
      listContainsSub ("Exception".data) l then
    formatErrorMessage
      (if listContainsSub ("Error:".data) l && listContainsSub ("at ".data) l then
        "javascript"
      else "python")
      workdir l
  else stripAnsiCodes l

/-! ## C10 — validator dispatch versus executor registry
(`lib/security/validator.py` lines 30-58,
`executors/__init__.py`,
`api/security/javascript_ast_validator.py`)

A tree-sitter node is embedded as type string, source text, named
fields (an association list) and the ordered child list; the walker
iterates `node.children` and the identifier check consults the parent's
type, threaded through the walk. -/

/-- Tree-sitter node shape used by the JavaScript validator. -/
inductive JSNode where
  | mk (ty : String) (text : String) (fields : List (String × JSNode))
      (children : List JSNode)

/-- Node type. -/
def jsTy : JSNode → String
  | .mk t _ _ _ => t

/-- Node source text (`get_node_text`). -/
def jsText : JSNode → String
  | .mk _ x _ _ => x

/-- Direct children. -/
def jsChildren : JSNode → List JSNode
  | .mk _ _ _ cs => cs

/-- `node.child_by_field_name(name)`. -/
def childByField (n : JSNode) (fieldName : String) : Option JSNode :=
  match n with
  | .mk _ _ fs _ => fs.lookup fieldName

/-- `ASTWalker.find_child_by_type`: first direct child of a type. -/
def childByType (n : JSNode) (t : String) : Option JSNode :=
  (jsChildren n).find? (fun c => jsTy c == t)

mutual

/-- Recursive walk collecting `(parent type, node)` pairs. -/
def jsWalk (parentTy : Option String) : JSNode → List (Option String × JSNode)
  | .mk t x fs cs => (parentTy, .mk t x fs cs) :: jsWalkList (some t) cs

/-- Walk of a child list. -/
def jsWalkList (parentTy : Option String) : List JSNode → List (Option String × JSNode)
  | [] => []
  | n :: ns => jsWalk parentTy n ++ jsWalkList parentTy ns

end

/-- `ASTWalker.find_nodes_by_type`. -/
def jsNodesByType (root : JSNode) (t : String) : List JSNode :=
  (jsWalk none root).filterMap
    (fun p => if jsTy p.snd == t then some p.snd else none)

/-- `JAVASCRIPT_BLOCKED_OPERATIONS` from `api/models/allowlist.py`. -/
def JAVASCRIPT_BLOCKED_OPERATIONS : List String :=
  ["eval", "Function", "require", "import",
   "process", "global", "__dirname", "__filename", "module", "exports"]

/-- `JAVASCRIPT_BLOCKED_MODULES` from `api/models/allowlist.py`. -/
def JAVASCRIPT_BLOCKED_MODULES : List String :=
  ["fs", "path", "os", "child_process", "cluster", "worker_threads",
   "net", "http", "https", "http2", "dgram", "dns", "tls",
   "v8", "vm", "repl", "readline"]

/-- `JAVASCRIPT_DANGEROUS_PATTERNS` from `api/models/allowlist.py`. -/
def JAVASCRIPT_DANGEROUS_PATTERNS : List String :=
  ["process.binding", "process.mainModule", "global.process",
   "globalThis.", "module.constructor", "this.constructor"]

/-- `JAVASCRIPT_BLOCKED_IDENTIFIERS` from `api/models/allowlist.py`. -/
def JAVASCRIPT_BLOCKED_IDENTIFIERS : List String :=
  ["process", "global", "__dirname", "__filename"]

/-- Single-quote character, via its code point. -/
def sQuoteChar : Char := Char.ofNat 39

/-- Backquote character, via its code point. -/
def bQuoteChar : Char := Char.ofNat 96

/-- `_get_string_value`: strip one layer of matching quotes (double,
single, or back quotes). -/
def getStringValue (n : JSNode) : String :=
  let t := jsText n
  if strStartsWith t "\"" && strEndsWith t "\"" then
    String.mk ((t.data.drop 1).dropLast)
  else if strStartsWith t (String.mk [sQuoteChar]) &&
      strEndsWith t (String.mk [sQuoteChar]) then
    String.mk ((t.data.drop 1).dropLast)
  else if strStartsWith t (String.mk [bQuoteChar]) &&
      strEndsWith t (String.mk [bQuoteChar]) then
    String.mk ((t.data.drop 1).dropLast)
  else t

/-- `_is_blocked_module`. -/
def isBlockedModule (m : String) : Bool :=
  JAVASCRIPT_BLOCKED_MODULES.contains m ||
  JAVASCRIPT_BLOCKED_MODULES.any (fun b => strStartsWith m (b ++ "/"))

/-- `_get_function_name`. -/
def getFunctionName (call : JSNode) : Option String :=
  match childByField call "function" with
  | none => none
  | some f =>
      if jsTy f = "identifier" then some (jsText f)
      else if jsTy f = "member_expression" then
        (childByField f "property").map jsText
      else none

/-- `_check_require_call`: first violation message, if any. -/
def checkRequireCall (call : JSNode) : Option String :=
  match childByType call "arguments" with
  | none => none
  | some args =>
      match (jsChildren args).find? (fun c => jsTy c == "string") with
      | some s =>
          let m := getStringValue s
          if isBlockedModule m then some ("Blocked module: " ++ m) else none
      | none => none

/-- `_check_call_expressions`: first violation message, if any. -/
def checkCallExpressions (root : JSNode) : Option String :=
  (jsNodesByType root "call_expression").findSome? (fun call =>
    match getFunctionName call with
    | none => none
    | some fn =>
        if JAVASCRIPT_BLOCKED_OPERATIONS.contains fn then
          some ("Blocked operation: " ++ fn ++ "()")
        else if fn = "require" then checkRequireCall call
        else none)

/-- `_check_imports`: first violation message, if any. -/
def checkImports (root : JSNode) : Option String :=
  (jsNodesByType root "import_statement").findSome? (fun imp =>
    match childByType imp "string" with
    | some s =>
        let m := getStringValue s
        if isBlockedModule m then some ("Blocked module: " ++ m) else none
    | none => none)

/-- `_check_member_expressions`: first violation message, if any. -/
def checkMemberExpressions (root : JSNode) : Option String :=
  (jsNodesByType root "member_expression").findSome? (fun member =>
    JAVASCRIPT_DANGEROUS_PATTERNS.findSome? (fun pat =>
      if strContains (jsText member) pat then
        some ("Dangerous property access: " ++ pat)
      else none))

/-- `_check_constructor_access`: first violation message, if any. -/
def checkConstructorAccess (root : JSNode) : Option String :=
  ((jsNodesByType root "member_expression").findSome? (fun member =>
    match childByField member "property" with
    | some p =>
        if strContains (jsText p) "constructor" then
          some "Constructor access not allowed"
        else none
    | none => none)).orElse (fun _ =>
      (jsNodesByType root "subscript_expression").findSome? (fun sub =>
        match childByField sub "index" with
        | some ix =>
            if strContains (jsText ix) "constructor" then
              some "Constructor access not allowed"
            else none
        | none => none))

/-- `_check_identifiers`: first violation message, if any (`parent`
must exist and not be a member expression). -/
def checkIdentifiers (root : JSNode) : Option String :=
  (jsWalk none root).findSome? (fun p =>
    match p.fst with
    | none => none
    | some parentTy =>
        if jsTy p.snd = "identifier" ∧ parentTy ≠ "member_expression" ∧
            JAVASCRIPT_BLOCKED_IDENTIFIERS.contains (jsText p.snd) then
          some ("Blocked identifier: " ++ jsText p.snd)
        else none)

/-- Embedding of `JavaScriptASTValidator.validate`: the five checks in
source order. -/
def jsValidate (tree : JSNode) : Bool × String :=
  match checkCallExpressions tree with
  | some m => (false, m)
  | none =>
      match checkImports tree with
      | some m => (false, m)
      | none =>
          match checkMemberExpressions tree with
          | some m => (false, m)
          | none =>
              match checkConstructorAccess tree with
              | some m => (false, m)
              | none =>
                  match checkIdentifiers tree with
                  | some m => (false, m)
                  | none => (true, "")

/-- Dispatch target of `CodeValidator.validate`. -/
inductive ValidatorRoute where
  | python
  | javascript
  | cpp
  | rust
  | unsupported (message : String)
  deriving DecidableEq, Repr

/-- Embedding of the language dispatch of `CodeValidator.validate`. -/
def validateRoute (language : String) : ValidatorRoute :=
  let l := pyLower language
  if l = "python" then .python
  else if l = "javascript" ∨ l = "js" then .javascript
  else if l = "c" ∨ l = "cpp" ∨ l = "c++" then .cpp
  else if l = "rust" then .rust
  else .unsupported ("Unsupported language: " ++ l)

/-- Executor classes of the registry. -/
inductive ExecutorKind where
  | python
  | javascript
  | rust
  | c
  | cpp
  deriving DecidableEq, Repr

/-- The `EXECUTORS` registry of `executors/__init__.py`. -/
def EXECUTORS : List (String × ExecutorKind) :=
  [("python", .python), ("javascript", .javascript), ("rust", .rust),
   ("c", .c), ("cpp", .cpp), ("c++", .cpp)]

/-- The string `', '.join(sorted(set(EXECUTORS.keys())))`. -/
def supportedLanguagesStr : String :=
  "c, c++, cpp, javascript, python, rust"

/-- Embedding of `get_executor`: the raised `ValueError` becomes the
`Except.error` payload. -/
def getExecutor (language : String) : Except String ExecutorKind :=
  let l := pyStrip (pyLower language)
  match EXECUTORS.lookup l with
  | some k => .ok k
  | none =>
      .error ("Unsupported language: " ++ l ++ ". Supported languages: " ++
        supportedLanguagesStr)

/-- Whether the validator dispatch accepts a tag (does not return the
unsupported-language failure). -/
def routeDispatches (language : String) : Bool :=
  match validateRoute language with
  | .unsupported _ => false
  | _ => true

/-- Whether the registry resolves a tag to an executor. -/
def executorResolvable (language : String) : Bool :=
  match getExecutor language with
  | .ok _ => true
  | .error _ => false

/-- A tree-sitter parse of the harmless program `1+1`. -/
def jsTreeOnePlusOne : JSNode :=
  .mk "program" "1+1" []
    [.mk "expression_statement" "1+1" []
      [.mk "binary_expression" "1+1" []
        [.mk "number" "1" [] [],
         .mk "+" "+" [] [],
         .mk "number" "1" [] []]]]

end Codr

/-! ## Theorems -/

namespace Codr

/-- Claim C6: the PTY runner's `ExecutionResult` always satisfies
`success = (exit_code == 0)`, and every exception raised inside the
runner yields a failure result with `exit_code = -1`,
`stderr = "Execution error: " ++ message`, and empty `stdout`. -/
theorem pty_result_success_iff_exit_zero (outcome : PtyOutcome) (t : Nat) :
    ((executePty outcome t).success = true ↔ (executePty outcome t).exit_code = 0) ∧
    (∀ msg : String, outcome = PtyOutcome.failed msg →
      executePty outcome t =
        { success := false, exit_code := -1, execution_time := t,
          stdout := "", stderr := "Execution error: " ++ msg }) := by
  constructor
  · cases outcome with
    | completed rc output =>
        cases rc with
        | none => simp [executePty, Option.getD]
        | some k =>
            by_cases hk : k = 0 <;>
              simp [executePty, Option.getD, hk]
    | failed msg => simp [executePty, formatErrorResult]
  · intro msg h
    subst h
    simp [executePty, formatErrorResult]

/-- Claim C9: `publish_error` publishes its error frame on the job's
output channel (not on a dedicated error channel), and since the
gateway subscription covers exactly the output and complete channels,
the error frame is delivered to the gateway. -/
theorem publish_error_on_output_channel (jobId message : String) :
    (publishError jobId message).fst = outputChannel jobId ∧
    (publishError jobId message).fst ≠ "job:" ++ jobId ++ ":error" ∧
    deliveredToGateway jobId (publishError jobId message) = true := by
  refine ⟨rfl, ?_, ?_⟩
  · intro h
    have hlen := congrArg String.length h
    simp [publishError, outputChannel, String.length_append] at hlen
    exact absurd hlen (by decide)
  · simp [deliveredToGateway, subscribeChannels, List.contains, publishError]

/-! ### C1 helper lemmas -/

theorem authSingleUse_store_mono (store : List String) (j k : String)
    (h : k ∈ store) : k ∈ (authSingleUse store j).store := by
  unfold authSingleUse
  split
  · exact h
  · exact List.mem_cons_of_mem _ h

theorem countAccepted_eq_zero_of_used (store : List String) (requests : List String)
    (jti : String) (h : usedTokenKey jti ∈ store) :
    countAccepted store requests jti = 0 := by
  induction requests generalizing store with
  | nil => rfl
  | cons j rest ih =>
      unfold countAccepted
      rw [ih _ (authSingleUse_store_mono store j _ h)]
      have hzero : (if (authSingleUse store j).accepted ∧ j = jti then 1 else 0) = 0 := by
        by_cases hj : j = jti
        · subst hj
          simp [authSingleUse, h]
        · simp [hj]
      rw [hzero]

/-- Claim C1: job tokens are single-use.  Across any sequence of
sessions run against the (reachable) redemption keyspace, the gate
accepts at most one session per `jti`; and immediately after a
successful redemption, a second session presenting the same `jti` is
rejected with close code 1008 and an error whose text contains
"already been used". -/
theorem job_tokens_single_use :
    (∀ (store requests : List String) (jti : String),
      countAccepted store requests jti ≤ 1) ∧
    (∀ (store : List String) (jti : String),
      (authSingleUse store jti).accepted = true →
        (authSingleUse (authSingleUse store jti).store jti).accepted = false ∧
        (authSingleUse (authSingleUse store jti).store jti).closeCode = some 1008 ∧
        (authSingleUse (authSingleUse store jti).store jti).errorMessage =
          some "Job token has already been used" ∧
        strContains "Job token has already been used" "already been used" = true) := by
  constructor
  · intro store requests jti
    induction requests generalizing store with
    | nil => simp [countAccepted]
    | cons j rest ih =>
        unfold countAccepted
        by_cases hacc : (authSingleUse store j).accepted ∧ j = jti
        · obtain ⟨ha, hj⟩ := hacc
          subst hj
          have hmem : usedTokenKey j ∉ store := by
            intro hm
            simp [authSingleUse, hm] at ha
          have hstore : (authSingleUse store j).store = usedTokenKey j :: store := by
            simp [authSingleUse, hmem]
          have h0 : countAccepted (authSingleUse store j).store rest j = 0 := by
            rw [hstore]
            exact countAccepted_eq_zero_of_used _ _ _ (List.mem_cons_self _ _)
          simp [ha, h0]
        · rw [if_neg hacc]
          simpa using ih _
  · intro store jti ha
    have hmem : usedTokenKey jti ∉ store := by
      intro hm
      simp [authSingleUse, hm] at ha
    have hstore : (authSingleUse store jti).store = usedTokenKey jti :: store := by
      simp [authSingleUse, hmem]
    rw [hstore]
    refine ⟨?_, ?_, ?_, by decide⟩ <;>
      simp [authSingleUse]

/-- Witness for C1 at a concrete keyspace and `jti`. -/
theorem job_tokens_single_use_witness :
    (authSingleUse [] "t").accepted = true ∧
    (authSingleUse (authSingleUse [] "t").store "t").accepted = false ∧
    (authSingleUse (authSingleUse [] "t").store "t").closeCode = some 1008 :=
  ⟨by decide,
   (job_tokens_single_use.2 [] "t" (by decide)).1,
   (job_tokens_single_use.2 [] "t" (by decide)).2.1⟩

set_option maxRecDepth 4000 in
/-- Claim C2 (code bug evidence): the gateway's input gate compares the
byte count of the frame against `max_input_kb` directly, so it rejects
every frame longer than 100 bytes even though the specified budget is
`max_input_kb` kilobytes; a 200-byte frame is well inside the 100 KB
budget yet receives the error frame instead of being published. -/
theorem input_gate_caps_bytes_not_kilobytes :
    (∀ (jobId d : String),
      handleInputFrame defaultMaxInputKb jobId d =
          InputAction.publish ("job:" ++ jobId ++ ":input") d ↔
        d.length ≤ defaultMaxInputKb) ∧
    inputFrame200.length = 200 ∧
    inputFrame200.length ≤ defaultMaxInputKb * 1024 ∧
    handleInputFrame defaultMaxInputKb "j" inputFrame200 =
      InputAction.errorFrame "Input too large (max 10KB)" := by
  refine ⟨?_, by decide, by decide, by decide⟩
  intro jobId d
  unfold handleInputFrame
  by_cases h : d.length > defaultMaxInputKb
  · rw [if_pos h]
    simp only [defaultMaxInputKb] at h ⊢
    constructor
    · intro hc
      exact absurd hc (by simp)
    · intro hc
      omega
  · rw [if_neg h]
    simp only [defaultMaxInputKb] at h ⊢
    constructor
    · intro _
      omega
    · intro _
      trivial

/-! ### C3 theorems -/

/-- Counterexample to claim C3: a compilation that exits non-zero is
surfaced as an `error` frame (carrying the raised exception's message),
not as a `complete` frame with the diagnostic in stderr. -/
theorem compile_failure_surfaces_error_frame_cx :
    workerJobFrame (executeCompiledJob "/tmp/t" 10 (CompileOutcome.finished 1 "boom")
        (PtyOutcome.completed (some 0) "") 0) = Frame.error "Compilation failed:\nboom" ∧
    (workerJobFrame (executeCompiledJob "/tmp/t" 10 (CompileOutcome.finished 1 "boom")
        (PtyOutcome.completed (some 0) "") 0)).isComplete = false := by
  decide

/-- Claim C3 (amended): for every compilation that exits non-zero or
times out, the executor raises and the worker surfaces an **error**
frame whose message carries the compiler diagnostic
(`"Compilation failed:\n" ++ stderr`) or the timeout text — never a
complete frame. -/
theorem compile_failure_error_frame (workdir : String) (ct : Nat) (rc : Int)
    (stderr : String) (run : PtyOutcome) (t : Nat) (h : rc ≠ 0) :
    workerJobFrame (executeCompiledJob workdir ct (CompileOutcome.finished rc stderr) run t) =
      Frame.error ("Compilation failed:\n" ++ stderr) ∧
    (workerJobFrame (executeCompiledJob workdir ct (CompileOutcome.finished rc stderr) run t)).isComplete
      = false ∧
    workerJobFrame (executeCompiledJob workdir ct CompileOutcome.timedOut run t) =
      Frame.error ("Compilation timed out after " ++ toString ct ++ " seconds") := by
  refine ⟨?_, ?_, ?_⟩ <;>
    simp [executeCompiledJob, compilerBuildCommand, workerJobFrame, Frame.isComplete,
      Except.map, h]

/-- Witness for C3's amended theorem at a concrete compile failure. -/
theorem compile_failure_error_frame_witness :
    (1 : Int) ≠ 0 ∧
    workerJobFrame (executeCompiledJob "/w" 10 (CompileOutcome.finished 1 "e")
        (PtyOutcome.completed (some 0) "") 0) = Frame.error "Compilation failed:\ne" :=
  ⟨by decide,
   (compile_failure_error_frame "/w" 10 1 "e" (PtyOutcome.completed (some 0) "") 0
      (by decide)).1⟩

/-! ### C4 theorems -/

/-- Counterexample to claim C4: `mark_failed` commits the failed status
and error payload but records no timestamp — neither `failed_at` nor
`completed_at` is set on the failed record. -/
theorem mark_failed_missing_timestamp_cx :
    hget failedJobExample "status" = some "failed" ∧
    hget failedJobExample "error" = some "boom" ∧
    hget failedJobExample "completed_at" = none ∧
    hget failedJobExample "failed_at" = none := by
  decide

/-- Claim C4 (amended): both terminal transitions commit status and
payload in one atomic pipeline, so an observer only ever sees the
pre-state or the full post-state — a `completed` status always comes
with its result and `completed_at`, a `failed` status always with its
error; but `mark_failed` sets no timestamp at all. -/
theorem terminal_transitions_atomic (jobId code language filename createdAt
    r ts e : String) (resOpt : Option String) :
    (∀ h ∈ observableStates (createJobHash jobId code language filename createdAt)
        (markCompletedCmds r ts),
      hget h "status" = some "completed" →
        hget h "result" = some r ∧ hget h "completed_at" = some ts) ∧
    (∀ h ∈ observableStates (createJobHash jobId code language filename createdAt)
        (markFailedCmds e resOpt),
      hget h "status" = some "failed" → hget h "error" = some e) ∧
    hget (applyCmds (createJobHash jobId code language filename createdAt)
        (markFailedCmds e resOpt)) "completed_at" = none ∧
    hget (applyCmds (createJobHash jobId code language filename createdAt)
        (markFailedCmds e resOpt)) "failed_at" = none := by
  refine ⟨?_, ?_, ?_, ?_⟩
  · intro h hmem hstatus
    simp only [observableStates, List.mem_cons, List.not_mem_nil, or_false] at hmem
    rcases hmem with hmem | hmem
    · subst hmem
      simp [createJobHash, hget] at hstatus
    · subst hmem
      simp [createJobHash, markCompletedCmds, applyCmds, hset, hget]
  · intro h hmem hstatus
    simp only [observableStates, List.mem_cons, List.not_mem_nil, or_false] at hmem
    rcases hmem with hmem | hmem
    · subst hmem
      simp [createJobHash, hget] at hstatus
    · subst hmem
      cases resOpt <;>
        simp [createJobHash, markFailedCmds, applyCmds, hset, hget]
  · cases resOpt <;>
      simp [createJobHash, markFailedCmds, applyCmds, hset, hget]
  · cases resOpt <;>
      simp [createJobHash, markFailedCmds, applyCmds, hset, hget]

/-- Witness for C4's amended theorem: a concrete completed record shows
result and timestamp landing together. -/
theorem terminal_transitions_atomic_witness :
    hget (applyCmds (createJobHash "i" "c" "python" "m.py" "1.0")
        (markCompletedCmds "res" "2.0")) "result" = some "res" ∧
    hget (applyCmds (createJobHash "i" "c" "python" "m.py" "1.0")
        (markCompletedCmds "res" "2.0")) "completed_at" = some "2.0" :=
  (terminal_transitions_atomic "i" "c" "python" "m.py" "1.0" "res" "2.0" "err" none).1
    (applyCmds (createJobHash "i" "c" "python" "m.py" "1.0")
      (markCompletedCmds "res" "2.0"))
    (by simp [observableStates]) (by decide)

/-! ### C5 helper lemmas and theorems -/

theorem str_ne_append (a b : String) (i : Nat) (c1 c2 : Char)
    (h1 : a.data.get? i = some c1) (h2 : b.data.get? i = some c2) (hne : c1 ≠ c2)
    (m : String) : a ≠ b ++ m := by
  intro h
  have hd : a.data = b.data ++ m.data := by
    have := congrArg String.data h
    simpa [String.data_append] using this
  have hb : i < b.data.length := by
    by_contra hlt
    push_neg at hlt
    have : b.data.get? i = none := List.get?_eq_none.mpr hlt
    rw [this] at h2
    exact Option.noConfusion h2
  have hsome : (b.data ++ m.data).get? i = some c2 := by
    rw [List.get?_append hb]
    exact h2
  rw [← hd, h1] at hsome
  exact hne (Option.some.inj hsome)

theorem strAppend_ne_append (a b : String) (i : Nat) (c1 c2 : Char)
    (h1 : a.data.get? i = some c1) (h2 : b.data.get? i = some c2) (hne : c1 ≠ c2)
    (t m : String) : a ++ t ≠ b ++ m := by
  intro h
  have ha : i < a.data.length := by
    by_contra hlt
    push_neg at hlt
    have : a.data.get? i = none := List.get?_eq_none.mpr hlt
    rw [this] at h1
    exact Option.noConfusion h1
  have hd : a.data ++ t.data = b.data ++ m.data := by
    have := congrArg String.data h
    simpa [String.data_append] using this
  have hb : i < b.data.length := by
    by_contra hlt
    push_neg at hlt
    have : b.data.get? i = none := List.get?_eq_none.mpr hlt
    rw [this] at h2
    exact Option.noConfusion h2
  have e1 : (a.data ++ t.data).get? i = some c1 := by
    rw [List.get?_append ha]
    exact h1
  have e2 : (b.data ++ m.data).get? i = some c2 := by
    rw [List.get?_append hb]
    exact h2
  rw [hd, e2] at e1
  exact hne (Option.some.inj e1).symm

/-- Counterexample to claim C5: `node.py` is a valid filename, yet the
sandbox command built for a *Python* job with that filename carries no
`--rlimit-as` flag — the heuristic looks for the substring `node` in
the command words, and the interpreter argv contains the file path. -/
theorem sandbox_rlimit_valid_filename_cx :
    validateFileName "node.py" = true ∧
    rlimitAsFlag 300 ∉
      buildSandboxCommand 7 300 1 (pythonBuildCommand (osPathJoin "/tmp/t" "node.py")) ∧
    (buildSandboxCommand 7 300 1
        (pythonBuildCommand (osPathJoin "/tmp/t" "node.py"))).any
      (fun e => strStartsWith e "--rlimit-as=") = false := by
  decide

/-- Claim C5 (amended): the address-space rlimit is omitted exactly
when the keyword heuristic fires on the command: it always fires for
the JavaScript argv (whose first word is `node`), and for the other
languages it stays off — and the flag therefore on, with value
`max_memory_mb` bytes — whenever no command word contains one of the
keywords `node`/`nodejs`/`javascript`. -/
theorem sandbox_rlimit_keyword_policy (timeout mm mf : Nat) (command : List String)
    (hcmd : rlimitAsFlag mm ∉ command) :
    (rlimitAsFlag mm ∈ buildSandboxCommand timeout mm mf command ↔
      isJavascriptCommand command = false) ∧
    (∀ fp, isJavascriptCommand (javascriptBuildCommand fp) = true) ∧
    (∀ fp, jsKeywordFree fp = true →
      isJavascriptCommand (pythonBuildCommand fp) = false) ∧
    (∀ wd, jsKeywordFree (osPathJoin wd "program") = true →
      isJavascriptCommand (compiledRunCommand wd) = false) := by
  have n1 : ("/usr/bin/firejail" : String) ≠ rlimitAsFlag mm :=
    str_ne_append _ "--rlimit-as=" 0 '/' '-' (by decide) (by decide) (by decide) _
  have n2 : ("--quiet" : String) ≠ rlimitAsFlag mm :=
    str_ne_append _ "--rlimit-as=" 2 'q' 'r' (by decide) (by decide) (by decide) _
  have n3 : ("--profile=/etc/firejail/sandbox.profile" : String) ≠ rlimitAsFlag mm :=
    str_ne_append _ "--rlimit-as=" 2 'p' 'r' (by decide) (by decide) (by decide) _
  have n4 : ("--nodbus" : String) ≠ rlimitAsFlag mm :=
    str_ne_append _ "--rlimit-as=" 2 'n' 'r' (by decide) (by decide) (by decide) _
  have n5 : "--rlimit-cpu=" ++ toString timeout ≠ rlimitAsFlag mm :=
    strAppend_ne_append _ "--rlimit-as=" 9 'c' 'a' (by decide) (by decide) (by decide) _ _
  have n6 : "--rlimit-fsize=" ++ toString (mf * 1024 * 1024) ≠ rlimitAsFlag mm :=
    strAppend_ne_append _ "--rlimit-as=" 9 'f' 'a' (by decide) (by decide) (by decide) _ _
  have n7 : "--timeout=00:00:" ++ pad2 timeout ≠ rlimitAsFlag mm :=
    strAppend_ne_append _ "--rlimit-as=" 2 't' 'r' (by decide) (by decide) (by decide) _ _
  refine ⟨?_, ?_, ?_, ?_⟩
  · constructor
    · intro hmem
      by_contra hjs
      have hjs' : isJavascriptCommand command = true := by
        cases h : isJavascriptCommand command
        · exact absurd h hjs
        · rfl
      simp only [buildSandboxCommand, hjs', if_pos] at hmem
      rcases List.mem_append.mp hmem with hb | hc
      · simp only [List.mem_cons, List.not_mem_nil, or_false] at hb
        rcases hb with h | h | h | h | h | h | h <;>
          first
          | exact n1 h.symm
          | exact n2 h.symm
          | exact n3 h.symm
          | exact n4 h.symm
          | exact n5 h.symm
          | exact n6 h.symm
          | exact n7 h.symm
      · exact hcmd hc
    · intro hjs
      simp [buildSandboxCommand, hjs]
  · intro fp
    have hnode : strContains (pyLower "node") "node" = true := by decide
    simp [isJavascriptCommand, javascriptBuildCommand, sandboxKeywords,
      List.any_cons, hnode]
  · intro fp h
    have hpy : (sandboxKeywords.any fun kw => strContains (pyLower "python3") kw) = false := by
      decide
    simp only [jsKeywordFree, Bool.not_eq_true', Bool.not_eq_false] at h
    simp [isJavascriptCommand, pythonBuildCommand, List.any_cons, hpy, h]
  · intro wd h
    simp only [jsKeywordFree, Bool.not_eq_true', Bool.not_eq_false] at h
    simp [isJavascriptCommand, compiledRunCommand, List.any_cons, h]

/-- Witness for C5's amended theorem: the ordinary Python argv gets the
rlimit flag. -/
theorem sandbox_rlimit_keyword_policy_witness :
    rlimitAsFlag 300 ∉ pythonBuildCommand "/tmp/t/main.py" ∧
    rlimitAsFlag 300 ∈ buildSandboxCommand 7 300 1 (pythonBuildCommand "/tmp/t/main.py") :=
  ⟨by decide,
   ((sandbox_rlimit_keyword_policy 7 300 1 (pythonBuildCommand "/tmp/t/main.py")
      (by decide)).1).mpr (by decide)⟩

/-! ### C7 helper lemmas and theorems -/

theorem claimListed_hits_validator (n : PyNode) (h : claimListedNode n = true) :
    (nodeViolation n).isSome = true := by
  cases n with
  | call funcExpr args =>
      cases funcExpr with
      | name funcName =>
          simp only [claimListedNode] at h
          simp [nodeViolation, h, List.elem_iff.mp h]
      | attrAccess v a => simp [claimListedNode] at h
      | _ => simp [claimListedNode] at h
  | importStmt ns =>
      simp only [claimListedNode, List.any_eq_true] at h
      obtain ⟨nm, hmem, hnm⟩ := h
      have : (ns.findSome? (fun nm =>
          if PYTHON_BLOCKED_MODULES.contains (leadingPkg nm) then
            some ("Blocked module: " ++ leadingPkg nm)
          else none)) ≠ none := by
        intro hnone
        have := List.findSome?_eq_none.mp hnone nm hmem
        rw [if_pos hnm] at this
        exact Option.noConfusion this
      simpa [nodeViolation, Option.isSome_iff_ne_none] using this
  | importFrom m ns =>
      cases m with
      | some mm =>
          simp only [claimListedNode] at h
          simp [nodeViolation, h, List.elem_iff.mp h]
      | none => simp [claimListedNode] at h
  | name i =>
      simp only [claimListedNode, decide_eq_true_eq] at h
      simp [nodeViolation, h]
  | _ => simp [claimListedNode] at h

/-- Counterexample to claim C7: `x.__dict__` contains none of the
claim's listed constructs (no blocked call, no blocked import, no bare
`compile`), yet the validator rejects it. -/
theorem python_validator_claim_cx :
    containsClaimListed pyClaimCounterexample = false ∧
    pyValidate pyClaimCounterexample =
      (false, "Access to restricted attribute: __dict__") := by
  decide

/-- Claim C7 (amended): the Python validator rejects every source
containing one of the claim's listed constructs; more generally it
rejects every source containing any construct it flags — the claim's
list plus dunder-method calls, attribute access on blocked modules /
non-safe dunder names, and subscripts on dunder names — and it accepts,
as `(true, "")`, exactly the sources containing none of those flagged
constructs. -/
theorem python_validator_characterization (m : PyNode) :
    (containsClaimListed m = true → (pyValidate m).fst = false) ∧
    (containsFlagged m = true → (pyValidate m).fst = false) ∧
    (containsFlagged m = false → pyValidate m = (true, "")) := by
  refine ⟨?_, ?_, ?_⟩
  · intro h
    obtain ⟨n, hmem, hn⟩ := List.any_eq_true.mp h
    have hv : nodeViolation n ≠ none := by
      have := claimListed_hits_validator n hn
      simpa [Option.isSome_iff_ne_none] using this
    have hfs : (pyWalk m).findSome? nodeViolation ≠ none := by
      intro hnone
      exact hv (List.findSome?_eq_none.mp hnone n hmem)
    unfold pyValidate
    cases hcase : (pyWalk m).findSome? nodeViolation with
    | none => exact absurd hcase hfs
    | some msg => simp
  · intro h
    obtain ⟨n, hmem, hn⟩ := List.any_eq_true.mp h
    have hv : nodeViolation n ≠ none := by
      simpa [Option.isSome_iff_ne_none] using hn
    have hfs : (pyWalk m).findSome? nodeViolation ≠ none := by
      intro hnone
      exact hv (List.findSome?_eq_none.mp hnone n hmem)
    unfold pyValidate
    cases hcase : (pyWalk m).findSome? nodeViolation with
    | none => exact absurd hcase hfs
    | some msg => simp
  · intro h
    have hall : ∀ n ∈ pyWalk m, nodeViolation n = none := by
      intro n hmem
      by_contra hne
      have hsome : (nodeViolation n).isSome = true := by
        simpa [Option.isSome_iff_ne_none] using hne
      have : containsFlagged m = true :=
        List.any_eq_true.mpr ⟨n, hmem, hsome⟩
      rw [h] at this
      exact Bool.noConfusion this
    unfold pyValidate
    rw [List.findSome?_eq_none.mpr hall]

/-! ### C8 helper lemmas and theorems -/

theorem ansiMatch_eq_none_of_not_mem (l : List Char) (h : '[' ∉ l) :
    ansiMatch l = none := by
  unfold ansiMatch
  split
  · simp at h
  · simp at h
  · rfl

theorem subGo_ansi_id (fuel : Nat) (l : List Char) (h : '[' ∉ l) :
    subGo ansiMatch [] fuel l = l := by
  induction fuel generalizing l with
  | zero => rfl
  | succ n ih =>
      cases l with
      | nil => rfl
      | cons c rest =>
          have hrest : '[' ∉ rest := fun hr => h (List.mem_cons_of_mem _ hr)
          simp only [subGo, ansiMatch_eq_none_of_not_mem _ h]
          rw [ih rest hrest]

theorem stripAnsiCodes_id (l : List Char) (h : '[' ∉ l) :
    stripAnsiCodes l = l :=
  subGo_ansi_id l.length l h

/-- Counterexample to claim C8: the chunk `[[1m2m` contains no error
marker, so the pipeline reduces to ANSI stripping; stripping once
yields `[2m` — itself a complete ANSI sequence — so a second pass
changes it again.  The already-sanitized chunk `[2m` is not a fixed
point. -/
theorem sanitizer_not_idempotent_cx :
    cleanOutput "/w" ("[[1m2m".data) = "[2m".data ∧
    cleanOutput "/w" (cleanOutput "/w" ("[[1m2m".data)) = [] ∧
    cleanOutput "/w" (cleanOutput "/w" ("[[1m2m".data)) ≠
      cleanOutput "/w" ("[[1m2m".data) := by
  refine ⟨by decide, by decide, ?_⟩
  decide

/-- Claim C8 (amended): sanitizing an already-sanitized chunk is a
fixed point whenever the sanitized chunk contains no left-bracket
character and none of the error markers `Error:` / `Traceback` /
`Exception`; in general the pipeline is not idempotent, because the
bracket-only ANSI pattern can match inside its own residue. -/
theorem sanitizer_fixed_point_no_bracket (workdir : String) (chunk : List Char)
    (hbr : '[' ∉ cleanOutput workdir chunk)
    (he : listContainsSub ("Error:".data) (cleanOutput workdir chunk) = false)
    (ht : listContainsSub ("Traceback".data) (cleanOutput workdir chunk) = false)
    (hx : listContainsSub ("Exception".data) (cleanOutput workdir chunk) = false) :
    cleanOutput workdir (cleanOutput workdir chunk) = cleanOutput workdir chunk := by
  conv_lhs => rw [cleanOutput]
  rw [he, ht, hx]
  simpa using stripAnsiCodes_id _ hbr

/-- Witness for C8's amended theorem at a concrete plain chunk. -/
theorem sanitizer_fixed_point_no_bracket_witness :
    cleanOutput "/w" (cleanOutput "/w" ("hello".data)) =
      cleanOutput "/w" ("hello".data) :=
  sanitizer_fixed_point_no_bracket "/w" ("hello".data) (by decide) (by decide)
    (by decide) (by decide)

/-- Witness for C7's amended theorem: `eval(x)` is rejected (listed
construct), the dunder-method call `x.__str__()` is rejected (flagged
construct outside the claim's list), and a plain expression is
accepted. -/
theorem python_validator_characterization_witness :
    (pyValidate (PyNode.module
        [PyNode.exprStmt (PyNode.call (PyNode.name "eval") [PyNode.name "x"])])).fst
      = false ∧
    (pyValidate (PyNode.module
        [PyNode.exprStmt
          (PyNode.call (PyNode.attrAccess (PyNode.name "x") "__str__") [])])).fst
      = false ∧
    pyValidate (PyNode.module [PyNode.exprStmt (PyNode.name "x")]) = (true, "") :=
  ⟨(python_validator_characterization
      (PyNode.module
        [PyNode.exprStmt (PyNode.call (PyNode.name "eval") [PyNode.name "x"])])).1
      (by decide),
   (python_validator_characterization
      (PyNode.module
        [PyNode.exprStmt
          (PyNode.call (PyNode.attrAccess (PyNode.name "x") "__str__") [])])).2.1
      (by decide),
   (python_validator_characterization
      (PyNode.module [PyNode.exprStmt (PyNode.name "x")])).2.2 (by decide)⟩

/-! ### C10 theorem -/

/-- Claim C10: the validator dispatch and the executor registry
disagree on aliases — `validate(code, "js")` routes to the JavaScript
validator (which accepts, e.g., the parse of `1+1` as `(true, "")`),
while `get_executor("js")` raises `ValueError` because the registry
keys are python/javascript/rust/c/cpp/c++; hence the tags the
validator accepts are not a subset of the executor-resolvable tags. -/
theorem validator_registry_alias_mismatch :
    validateRoute "js" = ValidatorRoute.javascript ∧
    jsValidate jsTreeOnePlusOne = (true, "") ∧
    getExecutor "js" =
      Except.error
        ("Unsupported language: js. Supported languages: " ++
          "c, c++, cpp, javascript, python, rust") ∧
    routeDispatches "js" = true ∧
    executorResolvable "js" = false ∧
    ¬ (∀ tag : String, routeDispatches tag = true → executorResolvable tag = true) := by
  refine ⟨by decide, by decide, by rfl, by decide, by decide, ?_⟩
  intro h
  have := h "js" (by decide)
  rw [show executorResolvable "js" = false from by decide] at this
  exact Bool.noConfusion this

end Codr
